import Mathlib

/-!
Shallow embedding of the usbip-device bus core (src/cmd.rs, src/op.rs,
src/handler.rs) and proofs about the claims of the specification.

Bytes are modelled as `Nat` values (the wire never performs arithmetic on
them, only copies). Machine integers u32/u16/u8 are modelled as `Nat`; the
code only assigns and compares them, so no wrap-around arises in the
modelled paths. The emitted USBIP_RET_SUBMIT frames are collected in an
`out_msgs` list: an element appended there corresponds to one
`write_all(&response.to_vec().unwrap())` call on the connection.
-/

namespace UsbIp

abbrev Byte := Nat

/-- Modelled from the spec: one direction of an endpoint (`EndpointDir` lives
in the crate root, which is not part of `src/`): a max packet size, the FIFO
of byte chunks (front of the list is the front of the queue), and the
`ready_to_send` flag (`is_rts()` in `handler.rs`). -/
structure EndpointDir where
  max_packet_size : Nat
  data : List (List Byte)
  rts : Bool
deriving Repr, DecidableEq

/-- Modelled from the spec: an endpoint of the bus (crate root, not in
`src/`): optional IN and OUT directions, the last accepted sequence number,
the SETUP flag and the outstanding IN-URB length. The fields named here are
exactly the ones `handler.rs` reads and writes (`ep.seqnum`,
`ep.setup_flag`, `ep.bytes_requested`, `ep.get_in()`, `ep.get_out()`). -/
structure Endpoint where
  ep_in : Option EndpointDir
  ep_out : Option EndpointDir
  seqnum : Nat
  setup_flag : Bool
  bytes_requested : Option Nat
deriving Repr, DecidableEq

/-- The 12-byte USB/IP request header of `cmd.rs` (`UsbIpHeader`):
`command:u32, seqnum:u32, devid:u32`, big-endian on the wire. -/
structure UsbIpHeader where
  command : Nat
  seqnum : Nat
  devid : Nat
deriving Repr, DecidableEq

/-- The 36-byte command body of `cmd.rs` (`UsbIpCmd`). `handler.rs` reads
the `direction` and `ep` fields through the header value it is handed; in
the framing of `cmd.rs` those two fields are the leading fields of this
body, so they are modelled here. -/
structure UsbIpCmd where
  direction : Nat
  ep : Nat
  transfer_flags : Nat
  transfer_buffer_length : Nat
  start_frame : Nat
  number_of_packets : Nat
  interval_or_err_count : Nat
  setup : List Byte
deriving Repr, DecidableEq

/-- The RET_SUBMIT body built in `try_send_pending` (`UsbIpRetSubmit`).
`status` and `actual_length` are i32 in the source; `status` is always
written as 0, and `actual_length` is written through the wrapping cast
`out_buf.len() as i32`, modelled by `usizeAsI32`. -/
structure UsbIpRetSubmit where
  status : Int
  actual_length : Int
  start_frame : Nat
  number_of_packets : Nat
  error_count : Nat
deriving Repr, DecidableEq

/-- The response header as `handler.rs` constructs it: `command`, `seqnum`,
`devid`, `direction`, `ep`. -/
structure RespHeader where
  command : Nat
  seqnum : Nat
  devid : Nat
  direction : Nat
  ep : Nat
deriving Repr, DecidableEq

/-- A full `UsbIpResponse` of `handler.rs`: header, RET_SUBMIT command and
payload data. -/
structure UsbIpResponse where
  header : RespHeader
  cmd : UsbIpRetSubmit
  data : List Byte
deriving Repr, DecidableEq

/-- The bus state used by `handler.rs` (`UsbIpBusInner`, crate root, not in
`src/`; the fields modelled are the ones `handler.rs` touches): the `reset`
phase flag, the endpoint map and the list of frames written to the
connection so far. -/
structure UsbIpBusInner where
  reset : Bool
  endpoints : Nat → Option Endpoint
  out_msgs : List UsbIpResponse

/-- Modelled from the spec: `get_endpoint` of the crate root, a lookup in
the endpoint map. -/
def get_endpoint (s : UsbIpBusInner) (addr : Nat) : Option Endpoint :=
  s.endpoints addr

/-- Store an endpoint back into the map (the source mutates the endpoint in
place through `&mut`). -/
def set_endpoint (s : UsbIpBusInner) (addr : Nat) (e : Endpoint) : UsbIpBusInner :=
  { s with endpoints := fun i => if i = addr then some e else s.endpoints i }

/-- The `while let Some(data) = conf.data.pop_front()` loop of
`try_send_pending` (handler.rs lines 109-120). Given the queue and the
remaining byte budget it returns the collected output bytes and the queue
that remains. A chunk that fits the budget is consumed whole and the loop
continues; a chunk that does not fit is split, its tail pushed back to the
front of the queue, and the loop breaks. -/
def takeLoop : List (List Byte) → Nat → List Byte × List (List Byte)
  | [], _ => ([], [])
  | d :: rest, left =>
    if d.length ≤ left then
      let r := takeLoop rest (left - d.length)
      (d ++ r.1, r.2)
    else
      (d.take left, d.drop left :: rest)

/-- Recursion core of `chunks`, structural in a fuel argument so that the
kernel can evaluate it; the fuel is the list length, which bounds the
number of chunks whenever the chunk size is nonzero. The zero-fuel case on
a nonempty list is unreachable under that bound. -/
def chunksFuel (m : Nat) : Nat → List Byte → List (List Byte)
  | _, [] => []
  | 0, _ :: _ => []
  | fuel + 1, a :: l => ((a :: l).take m) :: chunksFuel m fuel ((a :: l).drop m)

/-- Rust `slice::chunks m`: split a list into consecutive pieces of length
`m`, only the last one possibly shorter. `chunks 0` panics in Rust; it is
never called that way (`max_packet_size ≥ 1`) and is given the value `[]`
here. -/
def chunks (m : Nat) (l : List Byte) : List (List Byte) :=
  if m = 0 then [] else chunksFuel m l.length l

/-- Rust `usize as i32` (the cast in `actual_length: out_buf.len() as i32`,
handler.rs line 135): truncate to the low 32 bits and reinterpret them as a
signed 32-bit value, so a length of 2^31 or more wraps negative. -/
def usizeAsI32 (n : Nat) : Int :=
  if n % 4294967296 < 2147483648 then ((n % 4294967296 : Nat) : Int)
  else ((n % 4294967296 : Nat) : Int) - 4294967296

/-- The cast is the identity below 2^31. -/
theorem usizeAsI32_small (k : Nat) (h : k < 2147483648) :
    usizeAsI32 k = (k : Int) := by
  unfold usizeAsI32
  have h2 : k % 4294967296 = k := Nat.mod_eq_of_lt (by omega)
  rw [h2, if_pos h]

/-- `try_send_pending` of `handler.rs` (lines 81-156), verbatim: return if
the endpoint is missing, if no IN URB is outstanding, if there is no IN
direction, or if the endpoint is not ready to send; otherwise run the drain
loop, emit one RET_SUBMIT and store the remaining queue. The source resets
neither `bytes_requested` nor the `rts` flag after emitting. The connection
is present whenever this runs from `handle_cmd` (the `unwrap` on it cannot
fire there), so the write is modelled as an append to `out_msgs`. -/
def try_send_pending (s : UsbIpBusInner) (ep_addr : Nat) : UsbIpBusInner :=
  match get_endpoint s ep_addr with
  | none => s
  | some ep =>
    match ep.bytes_requested with
    | none => s
    | some bytes_requested =>
      match ep.ep_in with
      | none => s
      | some conf =>
        if conf.rts = false then s
        else
          let r := takeLoop conf.data bytes_requested
          let response : UsbIpResponse :=
            { header :=
                { command := 0x0003
                  seqnum := ep.seqnum
                  devid := 2
                  direction := 0
                  ep := ep_addr }
              cmd :=
                { status := 0
                  actual_length := usizeAsI32 r.1.length
                  start_frame := 0
                  number_of_packets := 0
                  error_count := 0 }
              data := r.1 }
          let s2 := set_endpoint s ep_addr { ep with ep_in := some { conf with data := r.2 } }
          { s2 with out_msgs := s2.out_msgs ++ [response] }

/-- The ways `handle_cmd` can panic on a decoded frame: the `.unwrap()` on
`ep.get_out()` (setup push or OUT branch) and the catch-all on an unknown
direction value. -/
inductive PanicKind where
  | getOutUnwrap
  | unknownDirection
deriving Repr, DecidableEq

/-- Result of `handle_cmd`: either the updated bus state or a panic. -/
inductive CmdOutcome where
  | ok (s : UsbIpBusInner)
  | panicked (k : PanicKind)

/-- The all-zero 8-byte SETUP field. -/
def zeroSetup : List Byte := [0, 0, 0, 0, 0, 0, 0, 0]

/-- The SETUP step of `handle_cmd` (handler.rs lines 262-266): a nonzero
SETUP field is pushed onto the OUT queue (`get_out().unwrap()`, `none` here
standing for that panic) and `setup_flag` is set; the endpoint index is not
consulted. -/
def handleSetup (ep : Endpoint) (setup : List Byte) : Option Endpoint :=
  if setup ≠ zeroSetup then
    match ep.ep_out with
    | none => none
    | some od =>
      some { ep with
               ep_out := some { od with data := od.data ++ [setup] }
               setup_flag := true }
  else some ep

/-- `handle_cmd` of `handler.rs` (lines 243-286), verbatim: look up the
endpoint (drop the frame when absent), overwrite its `seqnum` with the
frame seqnum (the too-small case only logs a warning), run the SETUP step,
then dispatch on the direction: 0 pushes the payload in `max_packet_size`
chunks onto the OUT queue (and emits nothing), 1 records `bytes_requested`
and calls `try_send_pending`, anything else panics. -/
def handle_cmd (s : UsbIpBusInner) (header : UsbIpHeader) (cmd : UsbIpCmd)
    (data : List Byte) : CmdOutcome :=
  match get_endpoint s cmd.ep with
  | none => .ok s
  | some ep0 =>
    match handleSetup { ep0 with seqnum := header.seqnum } cmd.setup with
    | none => .panicked .getOutUnwrap
    | some ep2 =>
      if cmd.direction = 0 then
        match ep2.ep_out with
        | none => .panicked .getOutUnwrap
        | some od =>
          let od2 := { od with data := od.data ++ chunks od.max_packet_size data }
          .ok (set_endpoint s cmd.ep { ep2 with ep_out := some od2 })
      else if cmd.direction = 1 then
        let s2 := set_endpoint s cmd.ep
          { ep2 with bytes_requested := some cmd.transfer_buffer_length }
        .ok (try_send_pending s2 cmd.ep)
      else .panicked .unknownDirection

/-- Observe the emitted frames of a `handle_cmd` outcome. -/
def cmdOutMsgs : CmdOutcome → Option (List UsbIpResponse)
  | .ok s => some s.out_msgs
  | .panicked _ => none

/-- Observe one endpoint of a `handle_cmd` outcome. -/
def cmdEp (o : CmdOutcome) (i : Nat) : Option Endpoint :=
  match o with
  | .ok s => s.endpoints i
  | .panicked _ => none

/-- Observe the panic kind of a `handle_cmd` outcome. -/
def cmdPanic : CmdOutcome → Option PanicKind
  | .ok _ => none
  | .panicked k => some k

/-! ### The OP (attach) phase: `op.rs` and `handle_op` of `handler.rs` -/

/-- The 8-byte OP header of `op.rs`: `version:u16, command:u16, status:u32`. -/
structure OpHeader where
  version : Nat
  command : Nat
  status : Nat
deriving Repr, DecidableEq

/-- The fixed device record of `op.rs` (`OpDeviceDescriptor`). -/
structure OpDeviceDescriptor where
  busnum : Nat
  devnum : Nat
  speed : Nat
  vendor : Nat
  product : Nat
  bcd_device : Nat
  device_class : Nat
  device_subclass : Nat
  device_protocol : Nat
  configuration_value : Nat
  num_configurations : Nat
  num_interfaces : Nat
deriving Repr, DecidableEq

/-- The 4-byte interface record of `op.rs` (`OpInterfaceDescriptor`). -/
structure OpInterfaceDescriptor where
  interface_class : Nat
  interface_subclass : Nat
  interface_protocol : Nat
  padding : Nat
deriving Repr, DecidableEq

/-- `OpResponseCommand` of `op.rs`. -/
inductive OpResponseCommand where
  | ListDevices (i : OpInterfaceDescriptor)
  | ConnectDevice
deriving Repr, DecidableEq

/-- `OpResponse` of `op.rs`. Strings are carried as their UTF-8 bytes. -/
structure OpResponse where
  version : Nat
  path : List Byte
  bus_id : List Byte
  descriptor : OpDeviceDescriptor
  cmd : OpResponseCommand
deriving Repr, DecidableEq

/-- Little-endian 2-byte encoding of a u16 (the `ssmarshal` wire format used
by `op.rs` for the header and descriptor fields). -/
def le16 (v : Nat) : List Byte := [v % 256, v / 256 % 256]

/-- Little-endian 4-byte encoding of a u32 (`ssmarshal`). -/
def le32 (v : Nat) : List Byte :=
  [v % 256, v / 256 % 256, v / 65536 % 256, v / 16777216 % 256]

/-- The `ssmarshal` serialization of the 24-byte `OpDeviceDescriptor`. -/
def OpDeviceDescriptor.bytes (d : OpDeviceDescriptor) : List Byte :=
  le32 d.busnum ++ le32 d.devnum ++ le32 d.speed ++
  le16 d.vendor ++ le16 d.product ++ le16 d.bcd_device ++
  [d.device_class % 256, d.device_subclass % 256, d.device_protocol % 256,
   d.configuration_value % 256, d.num_configurations % 256, d.num_interfaces % 256]

/-- Outcome of `OpResponse::to_vec`: the produced bytes, the `None` return
of the over-long checks, or a panic (the `copy_from_slice` calls on the
256-byte path buffer and the 32-byte bus-id buffer panic whenever the
source slice length differs from the buffer length). -/
inductive SerResult where
  | ok (bytes : List Byte)
  | overLong
  | panicked
deriving Repr, DecidableEq

/-- `OpResponse::to_vec` of `op.rs` (lines 83-135), verbatim: serialize the
8-byte header with reply code 5 or 3 and status 0; return `None` when the
path exceeds 256 bytes; `path_buf.copy_from_slice(path)` with `path_buf`
of length 256, which panics unless the path is exactly 256 bytes long (so
no NUL padding ever happens); the same for the 32-byte bus id; then the
24-byte descriptor and, for ListDevices only, the 4-byte interface
record. -/
def OpResponse.to_vec (r : OpResponse) : SerResult :=
  let replyCode : Nat := match r.cmd with
    | .ListDevices _ => 0x0005
    | .ConnectDevice => 0x0003
  let headerBytes := le16 r.version ++ le16 replyCode ++ le32 0
  if r.path.length > 256 then .overLong
  else if r.path.length ≠ 256 then .panicked
  else if r.bus_id.length > 32 then .overLong
  else if r.bus_id.length ≠ 32 then .panicked
  else
    let tail : List Byte := match r.cmd with
      | .ListDevices i =>
        [i.interface_class % 256, i.interface_subclass % 256,
         i.interface_protocol % 256, i.padding % 256]
      | .ConnectDevice => []
    .ok (headerBytes ++ r.path ++ r.bus_id ++ r.descriptor.bytes ++ tail)

/-- `OpRequest` of `op.rs`: `ListDevices(OpHeader)` and
`ConnectDevice(OpHeader, String)`; the bus id string is carried as bytes.
(`handle_op` in `handler.rs` binds only the header of `ConnectDevice` and
never looks at the bus id.) -/
inductive OpRequest where
  | ListDevices (header : OpHeader)
  | ConnectDevice (header : OpHeader) (bus_id : List Byte)

/-- Outcome of `handle_op`: the updated state together with the bytes
written, or a panic carrying the state as mutated up to the panic point
(`handle_op` sets `reset = false` before it serializes the reply). -/
inductive OpOutcome where
  | ok (s : UsbIpBusInner) (sent : List Byte)
  | panicked (s : UsbIpBusInner)

/-- The byte list of an ASCII string literal. -/
def strBytes (s : String) : List Byte := s.toList.map Char.toNat

/-- The fixed synthetic topology path sent by `handle_op`. -/
def fixedPath : List Byte :=
  strBytes "/sys/devices/pci0000:00/0000:00:01.2/usb1/1-1"

/-- The fixed bus id sent by `handle_op`. -/
def fixedBusId : List Byte := strBytes "1-1"

/-- The device record `handle_op` fills in (handler.rs lines 167-184). -/
def handlerDescriptor : OpDeviceDescriptor :=
  { busnum := 1
    devnum := 2
    speed := 1
    vendor := 0x1111
    product := 0x1010
    bcd_device := 0
    device_class := 0
    device_subclass := 0
    device_protocol := 0
    configuration_value := 0
    num_configurations := 1
    num_interfaces := 1 }

/-- The `OpResponse` that the `ConnectDevice` arm of `handle_op` builds. -/
def connectResponse (version : Nat) : OpResponse :=
  { version := version
    path := fixedPath
    bus_id := fixedBusId
    descriptor := handlerDescriptor
    cmd := .ConnectDevice }

/-- The `OpResponse` that the `ListDevices` arm of `handle_op` builds. -/
def listResponse (version : Nat) : OpResponse :=
  { version := version
    path := fixedPath
    bus_id := fixedBusId
    descriptor := handlerDescriptor
    cmd := .ListDevices
      { interface_class := 0
        interface_subclass := 0
        interface_protocol := 0
        padding := 0 } }

/-- `handle_op` of `handler.rs` (lines 160-241), verbatim: both arms build
the fixed response; the `ConnectDevice` arm sets `reset = false`
unconditionally (the supplied bus id is never examined) before writing the
serialized reply; a failed serialization is a panic (`to_vec` itself panics
in `copy_from_slice`, or the `unwrap` on its `None`). -/
def handle_op (s : UsbIpBusInner) (op : OpRequest) : OpOutcome :=
  match op with
  | .ListDevices header =>
    match (listResponse header.version).to_vec with
    | .ok bytes => .ok s bytes
    | _ => .panicked s
  | .ConnectDevice header _ =>
    let s2 : UsbIpBusInner := { s with reset := false }
    match (connectResponse header.version).to_vec with
    | .ok bytes => .ok s2 bytes
    | _ => .panicked s2

/-- The bus state an `OpOutcome` leaves behind (for a panic, the state as
mutated before the panic; the process dies there). -/
def OpOutcome.busOf : OpOutcome → UsbIpBusInner
  | .ok s _ => s
  | .panicked s => s

/-- Whether an `OpOutcome` is a panic. -/
def OpOutcome.isPanic : OpOutcome → Bool
  | .ok _ _ => false
  | .panicked _ => true

/-! ### The socket layer: `UsbIpRequest::read` of `cmd.rs` and the attached
arm of `handle_socket` of `handler.rs` -/

/-- Big-endian value of a byte list (`u32::from_be_bytes` on 4-byte
slices). -/
def be32 (l : List Byte) : Nat := l.foldl (fun a b => a * 256 + b) 0

/-- `UsbIpHeader::from_slice` of `cmd.rs` on the 12 header bytes. -/
def headerFromSlice (l : List Byte) : UsbIpHeader :=
  { command := be32 (l.take 4)
    seqnum := be32 ((l.drop 4).take 4)
    devid := be32 ((l.drop 8).take 4) }

/-- `UsbIpCmd::from_slice` of `cmd.rs` on the 36 body bytes. -/
def cmdFromSlice (l : List Byte) : UsbIpCmd :=
  { direction := be32 (l.take 4)
    ep := be32 ((l.drop 4).take 4)
    transfer_flags := be32 ((l.drop 8).take 4)
    transfer_buffer_length := be32 ((l.drop 12).take 4)
    start_frame := be32 ((l.drop 16).take 4)
    number_of_packets := be32 ((l.drop 20).take 4)
    interval_or_err_count := be32 ((l.drop 24).take 4)
    setup := (l.drop 28).take 8 }

/-- What the peer socket currently offers: `closed` models peer EOF, `buf`
the bytes available to read right now (empty with the connection open makes
a nonblocking read fail with `WouldBlock`). -/
structure SocketInput where
  closed : Bool
  buf : List Byte
deriving Repr, DecidableEq

/-- The possible outcomes of `UsbIpRequest::read` of `cmd.rs`: a decoded
frame; the `WouldBlock` error; the `NotConnected` error built from peer EOF
(`ConnectionClosed`); the `InvalidInput` error with `PkgTooShort(n)` when
the header read returned `n` with `0 < n < 12`; the `InvalidInput` error
with `InvalidCommand` for an unknown command word; or a read that blocks
(`read_exact` on the now-blocking socket with the body not yet available,
which does not return). -/
inductive ReadResult where
  | frame (h : UsbIpHeader) (c : UsbIpCmd) (d : List Byte)
  | wouldBlock
  | notConnected
  | pkgTooShort (n : Nat)
  | invalidCommand (c : Nat)
  | blocked
deriving Repr, DecidableEq

/-- `UsbIpRequest::read` of `cmd.rs` (lines 43-101): a nonblocking read of
the 12 header bytes (EOF gives `NotConnected`, nothing available gives
`WouldBlock`, a short read gives `PkgTooShort`), then for command 1 a
blocking `read_exact` of the 36 body bytes and, for direction 0 with a
nonzero `transfer_buffer_length`, of the payload; any other command word is
`InvalidCommand`. The nonblocking read returns `min 12` of the available
bytes. -/
def usbip_read (inp : SocketInput) : ReadResult :=
  if inp.buf.length = 0 then
    if inp.closed then .notConnected else .wouldBlock
  else if inp.buf.length < 12 then .pkgTooShort inp.buf.length
  else
    let header := headerFromSlice (inp.buf.take 12)
    let rest := inp.buf.drop 12
    if header.command = 0x00000001 then
      if rest.length < 36 then .blocked
      else
        let cmd := cmdFromSlice (rest.take 36)
        let rest2 := rest.drop 36
        if cmd.direction = 0 then
          if cmd.transfer_buffer_length = 0 then .frame header cmd []
          else if rest2.length < cmd.transfer_buffer_length then .blocked
          else .frame header cmd (rest2.take cmd.transfer_buffer_length)
        else .frame header cmd []
    else .invalidCommand header.command

/-- The socket-facing bus state: the inner bus plus whether a connection is
held (`handler.connection`). -/
structure SocketBus where
  inner : UsbIpBusInner
  connected : Bool

/-- Outcome of one `handle_socket` step on the attached path: an updated
state, a panic, or a read that never returns. -/
inductive SockOutcome where
  | ok (b : SocketBus)
  | panicked
  | blocked

/-- The connected, attached arm of `handle_socket` in `handler.rs` (lines
45 and 62-75): read one URB request; on `WouldBlock` return unchanged; on
`NotConnected` set `reset = true` and drop the connection; on any other
read error (`PkgTooShort`, `InvalidCommand`) panic; on a decoded frame run
`handle_cmd` (whose own panics abort as well). The reset arm depends on
`OpRequest::read`, which is not part of `src/`, and is not modelled. -/
def handle_socket_attached (b : SocketBus) (inp : SocketInput) : SockOutcome :=
  match usbip_read inp with
  | .frame h c d =>
    match handle_cmd b.inner h c d with
    | .ok s2 => .ok { b with inner := s2 }
    | .panicked _ => .panicked
  | .wouldBlock => .ok b
  | .notConnected =>
    .ok { inner := { b.inner with reset := true }, connected := false }
  | .pkgTooShort _ => .panicked
  | .invalidCommand _ => .panicked
  | .blocked => .blocked

/-- Whether a socket step panicked. -/
def SockOutcome.isPanic : SockOutcome → Bool
  | .panicked => true
  | _ => false

/-! ### Helper lemmas -/

/-- The drain loop collects exactly the first `n` bytes of the flattened
queue (all of it when fewer than `n` bytes are queued). -/
theorem takeLoop_fst (q : List (List Byte)) (n : Nat) :
    (takeLoop q n).1 = q.flatten.take n := by
  induction q generalizing n with
  | nil => simp [takeLoop]
  | cons d rest ih =>
    simp only [takeLoop, List.flatten_cons]
    by_cases h : d.length ≤ n
    · simp only [if_pos h]
      rw [List.take_append_eq_append_take, List.take_of_length_le h, ih]
    · simp only [if_neg h]
      rw [List.take_append_eq_append_take]
      have h0 : n - d.length = 0 := by omega
      simp [h0]

/-- The drain loop loses no bytes: output plus remaining queue flatten back
to the original queue content. -/
theorem takeLoop_flatten (q : List (List Byte)) (n : Nat) :
    (takeLoop q n).1 ++ (takeLoop q n).2.flatten = q.flatten := by
  induction q generalizing n with
  | nil => simp [takeLoop]
  | cons d rest ih =>
    simp only [takeLoop, List.flatten_cons]
    by_cases h : d.length ≤ n
    · simp only [if_pos h]
      rw [List.append_assoc, ih]
    · simp only [if_neg h]
      simp only [List.flatten_cons, ← List.append_assoc, List.take_append_drop]

/-- A chunk that straddles the budget is split in place: its head fills the
output and its tail is pushed back at the front of the queue. -/
theorem takeLoop_split (d : List Byte) (rest : List (List Byte)) (n : Nat)
    (h : n < d.length) :
    takeLoop (d :: rest) n = (d.take n, d.drop n :: rest) := by
  simp only [takeLoop, if_neg (by omega : ¬ d.length ≤ n)]

/-- Equation for the emitting case of `try_send_pending`: with an endpoint
present, an outstanding IN URB and `ready_to_send` set, the drain loop runs
and exactly one RET_SUBMIT is appended; the stored queue becomes the loop
remainder; `bytes_requested` and `rts` are left as they were. -/
theorem try_send_pending_emit (s : UsbIpBusInner) (a n : Nat) (ep : Endpoint)
    (conf : EndpointDir) (he : get_endpoint s a = some ep)
    (hb : ep.bytes_requested = some n) (hi : ep.ep_in = some conf)
    (hr : conf.rts = true) :
    try_send_pending s a =
      { set_endpoint s a
          { ep with ep_in := some { conf with data := (takeLoop conf.data n).2 } } with
        out_msgs := s.out_msgs ++
          [{ header :=
               { command := 0x0003, seqnum := ep.seqnum, devid := 2,
                 direction := 0, ep := a }
             cmd :=
               { status := 0,
                 actual_length := usizeAsI32 (takeLoop conf.data n).1.length,
                 start_frame := 0, number_of_packets := 0, error_count := 0 }
             data := (takeLoop conf.data n).1 }] } := by
  unfold try_send_pending
  simp only [he, hb, hi, hr]
  rfl

/-- Equations for the silent cases of `try_send_pending`: a missing
endpoint, no outstanding IN URB, no IN direction, or `rts` unset leave the
state untouched. -/
theorem try_send_pending_silent (s : UsbIpBusInner) (a : Nat) :
    (get_endpoint s a = none → try_send_pending s a = s) ∧
    (∀ ep, get_endpoint s a = some ep →
      (ep.bytes_requested = none → try_send_pending s a = s) ∧
      (ep.ep_in = none → try_send_pending s a = s) ∧
      (∀ conf, ep.ep_in = some conf → conf.rts = false →
        try_send_pending s a = s)) := by
  constructor
  · intro he
    unfold try_send_pending
    simp only [he]
  · intro ep he
    refine ⟨?_, ?_, ?_⟩
    · intro hb
      unfold try_send_pending
      simp only [he, hb]
    · intro hi
      unfold try_send_pending
      simp only [he, hi]
      cases ep.bytes_requested <;> rfl
    · intro conf hi hr
      unfold try_send_pending
      simp only [he, hi, hr]
      cases ep.bytes_requested <;> rfl

/-- `try_send_pending` touches nothing but the IN direction of the
endpoint: seqnum, setup flag, OUT direction and `bytes_requested` of the
addressed endpoint survive. -/
theorem try_send_pending_ep (s : UsbIpBusInner) (a : Nat) (ep : Endpoint)
    (he : get_endpoint s a = some ep) :
    ∃ ep2, get_endpoint (try_send_pending s a) a = some ep2 ∧
      ep2.seqnum = ep.seqnum ∧ ep2.setup_flag = ep.setup_flag ∧
      ep2.ep_out = ep.ep_out ∧ ep2.bytes_requested = ep.bytes_requested := by
  cases hb : ep.bytes_requested with
  | none =>
    rw [((try_send_pending_silent s a).2 ep he).1 hb]
    exact ⟨ep, he, rfl, rfl, rfl, hb⟩
  | some n =>
    cases hi : ep.ep_in with
    | none =>
      rw [((try_send_pending_silent s a).2 ep he).2.1 hi]
      exact ⟨ep, he, rfl, rfl, rfl, hb⟩
    | some conf =>
      cases hr : conf.rts with
      | false =>
        rw [((try_send_pending_silent s a).2 ep he).2.2 conf hi hr]
        exact ⟨ep, he, rfl, rfl, rfl, hb⟩
      | true =>
        rw [try_send_pending_emit s a n ep conf he hb hi hr]
        refine ⟨{ ep with ep_in := some { conf with data := (takeLoop conf.data n).2 } },
          ?_, rfl, rfl, rfl, hb⟩
        simp [get_endpoint, set_endpoint]

/-- Total case analysis of `try_send_pending` at a present endpoint: it is
either a silent no-op or the emitting case of `try_send_pending_emit`. -/
theorem try_send_pending_total (s : UsbIpBusInner) (a : Nat) (ep : Endpoint)
    (he : get_endpoint s a = some ep) :
    try_send_pending s a = s ∨
    ∃ n conf, ep.bytes_requested = some n ∧ ep.ep_in = some conf ∧
      conf.rts = true ∧
      try_send_pending s a =
        { set_endpoint s a
            { ep with ep_in := some { conf with data := (takeLoop conf.data n).2 } } with
          out_msgs := s.out_msgs ++
            [{ header :=
                 { command := 0x0003, seqnum := ep.seqnum, devid := 2,
                   direction := 0, ep := a }
               cmd :=
                 { status := 0,
                   actual_length := usizeAsI32 (takeLoop conf.data n).1.length,
                   start_frame := 0, number_of_packets := 0, error_count := 0 }
               data := (takeLoop conf.data n).1 }] } := by
  cases hb : ep.bytes_requested with
  | none => exact .inl (((try_send_pending_silent s a).2 ep he).1 hb)
  | some n =>
    cases hi : ep.ep_in with
    | none => exact .inl (((try_send_pending_silent s a).2 ep he).2.1 hi)
    | some conf =>
      cases hr : conf.rts with
      | false => exact .inl (((try_send_pending_silent s a).2 ep he).2.2 conf hi hr)
      | true =>
        refine .inr ⟨n, conf, rfl, rfl, hr, ?_⟩
        have h := try_send_pending_emit s a n ep conf he hb hi hr
        rw [hb] at h
        exact h

/-- An endpoint produced by `handleSetup` keeps the seqnum, the IN
direction and `bytes_requested` of its input. -/
theorem handleSetup_fields (ep ep2 : Endpoint) (su : List Byte)
    (h : handleSetup ep su = some ep2) :
    ep2.seqnum = ep.seqnum ∧ ep2.ep_in = ep.ep_in ∧
      ep2.bytes_requested = ep.bytes_requested := by
  unfold handleSetup at h
  by_cases hz : su = zeroSetup
  · simp only [hz, ne_eq, not_true_eq_false, if_false, Option.some_inj] at h
    subst h
    exact ⟨rfl, rfl, rfl⟩
  · simp only [ne_eq, hz, not_false_eq_true, if_true] at h
    cases ho : ep.ep_out with
    | none => rw [ho] at h; cases h
    | some od =>
      rw [ho] at h
      cases h
      exact ⟨rfl, rfl, rfl⟩

/-- Full characterization of `handleSetup`: an all-zero SETUP leaves the
endpoint untouched, a nonzero one requires an OUT direction, appends the 8
SETUP bytes to its queue and sets `setup_flag`. -/
theorem handleSetup_cases (ep ep2 : Endpoint) (su : List Byte)
    (h : handleSetup ep su = some ep2) :
    (su = zeroSetup ∧ ep2 = ep) ∨
    (su ≠ zeroSetup ∧ ∃ od, ep.ep_out = some od ∧
      ep2 = { ep with ep_out := some { od with data := od.data ++ [su] }
                      setup_flag := true }) := by
  unfold handleSetup at h
  by_cases hz : su = zeroSetup
  · simp only [hz, ne_eq, not_true_eq_false, if_false, Option.some_inj] at h
    exact .inl ⟨hz, h.symm⟩
  · simp only [ne_eq, hz, not_false_eq_true, if_true] at h
    cases ho : ep.ep_out with
    | none => rw [ho] at h; cases h
    | some od =>
      rw [ho] at h
      cases h
      exact .inr ⟨hz, od, rfl, rfl⟩

/-- Case analysis of a successful `handle_cmd` run: either the endpoint was
absent and the state is untouched, or the seqnum was overwritten, the SETUP
step ran, and the direction dispatch took the OUT branch (chunks appended,
no emission) or the IN branch (`bytes_requested` recorded, then the
drain). -/
theorem handle_cmd_ok_cases (s : UsbIpBusInner) (hdr : UsbIpHeader)
    (cmd : UsbIpCmd) (data : List Byte) (s2 : UsbIpBusInner)
    (hok : handle_cmd s hdr cmd data = .ok s2) :
    (get_endpoint s cmd.ep = none ∧ s2 = s) ∨
    (∃ ep0 ep2, get_endpoint s cmd.ep = some ep0 ∧
      handleSetup { ep0 with seqnum := hdr.seqnum } cmd.setup = some ep2 ∧
      ((cmd.direction = 0 ∧ ∃ od, ep2.ep_out = some od ∧
          s2 = set_endpoint s cmd.ep
            { ep2 with
              ep_out := some { od with data := od.data ++ chunks od.max_packet_size data } }) ∨
       (cmd.direction = 1 ∧
          s2 = try_send_pending
            (set_endpoint s cmd.ep
              { ep2 with bytes_requested := some cmd.transfer_buffer_length })
            cmd.ep))) := by
  unfold handle_cmd at hok
  cases he : get_endpoint s cmd.ep with
  | none =>
    simp only [he] at hok
    cases hok
    exact .inl ⟨rfl, rfl⟩
  | some ep0 =>
    simp only [he] at hok
    cases hsu : handleSetup { ep0 with seqnum := hdr.seqnum } cmd.setup with
    | none => simp [hsu] at hok
    | some ep2 =>
      simp only [hsu] at hok
      by_cases hd0 : cmd.direction = 0
      · simp only [hd0, if_pos] at hok
        cases ho : ep2.ep_out with
        | none => simp [ho] at hok
        | some od =>
          simp only [ho] at hok
          cases hok
          exact .inr ⟨ep0, ep2, rfl, hsu, .inl ⟨hd0, od, ho, rfl⟩⟩
      · by_cases hd1 : cmd.direction = 1
        · simp only [hd0, hd1, if_neg, if_pos, if_false, if_true] at hok
          cases hok
          exact .inr ⟨ep0, ep2, rfl, hsu, .inr ⟨hd1, rfl⟩⟩
        · simp [hd0, hd1] at hok

/-! ### Claim fixtures: concrete states and frames -/

/-- A bus holding exactly one endpoint, at the given address. -/
def busWith (i : Nat) (e : Endpoint) : UsbIpBusInner :=
  { reset := false
    endpoints := fun j => if j = i then some e else none
    out_msgs := [] }

/-- An endpoint with only an OUT direction (max packet size 8, empty
queue). -/
def outOnlyEp : Endpoint :=
  { ep_in := none
    ep_out := some { max_packet_size := 8, data := [], rts := false }
    seqnum := 0
    setup_flag := false
    bytes_requested := none }

/-- An endpoint with only an IN direction, nothing queued, nothing
requested. -/
def inOnlyEp : Endpoint :=
  { ep_in := some { max_packet_size := 8, data := [], rts := false }
    ep_out := none
    seqnum := 0
    setup_flag := false
    bytes_requested := none }

/-- The IN direction used by the drain examples: two queued chunks, ready
to send. -/
def inPendingDir : EndpointDir :=
  { max_packet_size := 8, data := [[1, 2], [3, 4, 5]], rts := true }

/-- An IN endpoint with data queued, ready to send, and an outstanding
3-byte request. -/
def inPendingEp : Endpoint :=
  { ep_in := some inPendingDir
    ep_out := none
    seqnum := 7
    setup_flag := false
    bytes_requested := some 3 }

/-- An IN endpoint with one queued 3-byte chunk, ready to send, and an
outstanding 64-byte request. -/
def inPending64Ep : Endpoint :=
  { ep_in := some { max_packet_size := 8, data := [[1, 2, 3]], rts := true }
    ep_out := none
    seqnum := 7
    setup_flag := false
    bytes_requested := some 64 }

/-- A freshly connected bus in the reset phase with no endpoints. -/
def resetBus : UsbIpBusInner :=
  { reset := true, endpoints := fun _ => none, out_msgs := [] }

/-- A connected, attached socket state. -/
def attachedSock : SocketBus :=
  { inner := busWith 0 inOnlyEp, connected := true }

/-- Wire bytes of a CMD_SUBMIT whose direction word is 2: command 1,
seqnum 1, devid 2, then the 36-byte body with direction 2, ep 0, all other
fields and the SETUP zero. -/
def dir2Buf : List Byte :=
  [0, 0, 0, 1, 0, 0, 0, 1, 0, 0, 0, 2] ++
  ([0, 0, 0, 2] ++ List.replicate 24 0 ++ zeroSetup)

/-- Wire bytes of a CMD_SUBMIT OUT (direction 0) to endpoint 1 with
`transfer_buffer_length = 0` and zero SETUP. -/
def dir0Ep1Buf : List Byte :=
  [0, 0, 0, 1, 0, 0, 0, 1, 0, 0, 0, 2] ++
  ([0, 0, 0, 0] ++ [0, 0, 0, 1] ++ List.replicate 20 0 ++ zeroSetup)

/-! ### Claims -/

/-- C1: the spec says a CMD_SUBMIT OUT to an allocated endpoint pushes the
payload as `max_packet_size` chunks AND immediately emits one RET_SUBMIT
with status 0 and `actual_length = len(payload)`. The code performs the
chunk pushes but emits nothing: evaluated on a 3-byte OUT transfer to
endpoint 0 the outcome carries the chunk `[1,2,3]` on the OUT queue and an
empty output log, and the zero-length OUT transfer also emits nothing
(where the spec promises a RET_SUBMIT with `actual_length = 0`). -/
theorem C1_out_submit_emits_no_ret :
    cmdOutMsgs (handle_cmd (busWith 0 outOnlyEp) ⟨1, 1, 2⟩
      ⟨0, 0, 0, 3, 0, 0, 0, zeroSetup⟩ [1, 2, 3]) = some [] ∧
    cmdEp (handle_cmd (busWith 0 outOnlyEp) ⟨1, 1, 2⟩
      ⟨0, 0, 0, 3, 0, 0, 0, zeroSetup⟩ [1, 2, 3]) 0 =
      some { ep_in := none
             ep_out := some { max_packet_size := 8, data := [[1, 2, 3]], rts := false }
             seqnum := 1
             setup_flag := false
             bytes_requested := none } ∧
    cmdOutMsgs (handle_cmd (busWith 0 outOnlyEp) ⟨1, 2, 2⟩
      ⟨0, 0, 0, 0, 0, 0, 0, zeroSetup⟩ []) = some [] :=
  ⟨rfl, rfl, rfl⟩

/-- C3: the spec says `OpResponse::to_vec` returns a NUL-padded encoding
for any path of at most 256 bytes and bus id of at most 32 bytes, in
particular for the fixed path and bus id of the attach protocol. The code
pads with `copy_from_slice`, which panics whenever the string length is not
exactly the slot size: the 45-byte fixed path and 3-byte bus id make both
attach responses panic. -/
theorem C3_to_vec_panics_on_fixed_path :
    fixedPath.length = 45 ∧ fixedBusId.length = 3 ∧
    (connectResponse 0x0111).to_vec = SerResult.panicked ∧
    (listResponse 0x0111).to_vec = SerResult.panicked :=
  ⟨rfl, rfl, rfl, rfl⟩

/-- C5 counterexample: the claim says a bus id other than "1-1" gets a
nonzero status and the phase stays Reset. On the bus id "9-9" the handler
leaves the reset phase anyway (`reset` becomes false before the reply is
serialized; the serialization then panics, so no status at all is ever
sent). -/
theorem C5_cx_attaches_on_other_bus_id :
    resetBus.reset = true ∧
    (handle_op resetBus
      (.ConnectDevice ⟨0x0111, 0x8003, 0⟩ (strBytes "9-9"))).busOf.reset = false ∧
    (handle_op resetBus
      (.ConnectDevice ⟨0x0111, 0x8003, 0⟩ (strBytes "9-9"))).isPanic = true :=
  ⟨rfl, rfl, rfl⟩

/-- C5 amended: `handle_op` never examines the supplied bus id: every
OP_REQ_IMPORT unconditionally moves the bus out of the reset phase, and the
reply serialization then panics on the fixed path (so no reply, with any
status, is sent). -/
theorem C5_import_ignores_bus_id (s : UsbIpBusInner) (hdr : OpHeader)
    (bus_id : List Byte) :
    handle_op s (.ConnectDevice hdr bus_id) = .panicked { s with reset := false } :=
  rfl

/-- C7: the spec says `bytes_requested` is reset to none once the
RET_SUBMIT for an IN URB is emitted, so a later drain cannot answer the
same URB twice. The code never resets it (nor `rts`): after the first drain
emits one frame, the endpoint still holds `bytes_requested = some 64` and
`rts = true`, and draining again emits a second RET_SUBMIT for the same
URB. -/
theorem C7_bytes_requested_not_reset :
    (try_send_pending (busWith 1 inPending64Ep) 1).out_msgs.length = 1 ∧
    get_endpoint (try_send_pending (busWith 1 inPending64Ep) 1) 1 =
      some { ep_in := some { max_packet_size := 8, data := [], rts := true }
             ep_out := none
             seqnum := 7
             setup_flag := false
             bytes_requested := some 64 } ∧
    (try_send_pending (try_send_pending (busWith 1 inPending64Ep) 1) 1).out_msgs.length = 2 :=
  ⟨rfl, rfl, rfl⟩

/-- C9 counterexample: the claim says a header read of 1..11 bytes
(PacketTooShort) or an unknown command word (InvalidCommand) drops the
connection and returns to listening. With 5 bytes available, and with a
12-byte header whose command word is 66, `UsbIpRequest::read` returns those
errors and the attached socket arm panics instead of dropping the
connection. -/
theorem C9_cx_short_header_and_bad_command_panic :
    usbip_read ⟨false, [1, 2, 3, 4, 5]⟩ = .pkgTooShort 5 ∧
    (handle_socket_attached attachedSock ⟨false, [1, 2, 3, 4, 5]⟩).isPanic = true ∧
    usbip_read ⟨false, [0, 0, 0, 66, 0, 0, 0, 1, 0, 0, 0, 2]⟩ = .invalidCommand 66 ∧
    (handle_socket_attached attachedSock
      ⟨false, [0, 0, 0, 66, 0, 0, 0, 1, 0, 0, 0, 2]⟩).isPanic = true :=
  ⟨rfl, rfl, rfl, rfl⟩

/-- C10: there are successfully decoded CMD_SUBMIT frames on which
`handle_cmd` panics: a 48-byte frame whose direction word is 2 decodes fine
and hits the catch-all panic after the seqnum update, and a direction-0
frame to an allocated endpoint that has no OUT direction panics in the
`unwrap` on `get_out()`; so does a nonzero SETUP to such an endpoint. -/
theorem C10_decoded_frames_panic :
    usbip_read ⟨false, dir2Buf⟩ =
      .frame ⟨1, 1, 2⟩ ⟨2, 0, 0, 0, 0, 0, 0, zeroSetup⟩ [] ∧
    cmdPanic (handle_cmd (busWith 0 inOnlyEp) ⟨1, 1, 2⟩
      ⟨2, 0, 0, 0, 0, 0, 0, zeroSetup⟩ []) = some .unknownDirection ∧
    usbip_read ⟨false, dir0Ep1Buf⟩ =
      .frame ⟨1, 1, 2⟩ ⟨0, 1, 0, 0, 0, 0, 0, zeroSetup⟩ [] ∧
    cmdPanic (handle_cmd (busWith 1 inOnlyEp) ⟨1, 1, 2⟩
      ⟨0, 1, 0, 0, 0, 0, 0, zeroSetup⟩ []) = some .getOutUnwrap ∧
    cmdPanic (handle_cmd (busWith 1 inOnlyEp) ⟨1, 1, 2⟩
      ⟨1, 1, 0, 18, 0, 0, 0, [128, 6, 0, 1, 0, 0, 18, 0]⟩ []) = some .getOutUnwrap :=
  ⟨rfl, rfl, rfl, rfl, rfl⟩

/-- C2: with an outstanding IN URB of `n` bytes and `ready_to_send` set, the
drain emits exactly one RET_SUBMIT whose payload is the first
`min(n, total queued)` bytes of the concatenated queue (so an over-long
request gets a short response carrying exactly the queued bytes);
`actual_length` carries the payload length through the wrapping
usize-to-i32 cast of the source, hence equals the payload length whenever
the requested length stays below 2^31; the remaining queue carries exactly
the unsent suffix, and a chunk straddling the limit is split with its tail
pushed back at the front of the queue. -/
theorem C2_in_drain_takes_min_and_splits (s : UsbIpBusInner) (a n : Nat)
    (ep : Endpoint) (conf : EndpointDir) (he : get_endpoint s a = some ep)
    (hb : ep.bytes_requested = some n) (hi : ep.ep_in = some conf)
    (hr : conf.rts = true) :
    ∃ resp : UsbIpResponse,
      (try_send_pending s a).out_msgs = s.out_msgs ++ [resp] ∧
      resp.data = conf.data.flatten.take n ∧
      resp.cmd.actual_length = usizeAsI32 resp.data.length ∧
      (n < 2147483648 → resp.cmd.actual_length = (resp.data.length : Int)) ∧
      get_endpoint (try_send_pending s a) a =
        some { ep with ep_in := some { conf with data := (takeLoop conf.data n).2 } } ∧
      resp.data ++ (takeLoop conf.data n).2.flatten = conf.data.flatten ∧
      (∀ d rest, conf.data = d :: rest → n < d.length →
        (takeLoop conf.data n).2 = d.drop n :: rest) := by
  rw [try_send_pending_emit s a n ep conf he hb hi hr]
  refine ⟨_, rfl, takeLoop_fst conf.data n, rfl, ?_, ?_,
    takeLoop_flatten conf.data n, ?_⟩
  · intro hn
    have hlen : (takeLoop conf.data n).1.length ≤ n := by
      rw [takeLoop_fst]
      exact List.length_take_le n conf.data.flatten
    exact usizeAsI32_small _ (by omega)
  · simp [get_endpoint, set_endpoint]
  · intro d rest hd hn
    rw [hd, takeLoop_split d rest n hn]

/-- C2 witness: the drain theorem applied to a bus whose endpoint 1 has the
chunks `[1,2]` and `[3,4,5]` queued and a 3-byte request outstanding: the
emitted payload is `[1,2,3]` and the split tail `[4,5]` stays queued. -/
theorem C2_in_drain_witness :
    ∃ resp : UsbIpResponse,
      (try_send_pending (busWith 1 inPendingEp) 1).out_msgs =
        (busWith 1 inPendingEp).out_msgs ++ [resp] ∧
      resp.data = inPendingDir.data.flatten.take 3 ∧
      resp.cmd.actual_length = usizeAsI32 resp.data.length ∧
      (3 < 2147483648 → resp.cmd.actual_length = (resp.data.length : Int)) ∧
      get_endpoint (try_send_pending (busWith 1 inPendingEp) 1) 1 =
        some { inPendingEp with
                 ep_in := some { inPendingDir with data := (takeLoop inPendingDir.data 3).2 } } ∧
      resp.data ++ (takeLoop inPendingDir.data 3).2.flatten = inPendingDir.data.flatten ∧
      (∀ d rest, inPendingDir.data = d :: rest → 3 < d.length →
        (takeLoop inPendingDir.data 3).2 = d.drop 3 :: rest) :=
  C2_in_drain_takes_min_and_splits (busWith 1 inPendingEp) 1 3 inPendingEp
    inPendingDir rfl rfl rfl rfl

/-- C4 counterexample: the claim says the RET_SUBMIT echoes the direction
field, so an IN request (direction 1) would be answered with direction 1.
Processing an IN CMD_SUBMIT with seqnum 9 on endpoint 1 emits a RET_SUBMIT
whose header carries direction 0 (hard-coded), not 1. -/
theorem C4_cx_in_ret_carries_direction_zero :
    cmdOutMsgs (handle_cmd (busWith 1 inPendingEp) ⟨1, 9, 2⟩
      ⟨1, 1, 0, 64, 0, 0, 0, zeroSetup⟩ []) =
      some [{ header := { command := 3, seqnum := 9, devid := 2, direction := 0, ep := 1 }
              cmd := { status := 0, actual_length := 5, start_frame := 0
                       number_of_packets := 0, error_count := 0 }
              data := [1, 2, 3, 4, 5] }] :=
  rfl

/-- C4 amended: every RET_SUBMIT emitted for an IN CMD_SUBMIT echoes the
seqnum and ep of the request verbatim and carries command 3 and devid 2,
but its direction field is always 0, even though the request had
direction 1. -/
theorem C4_ret_submit_field_echo (s : UsbIpBusInner) (hdr : UsbIpHeader)
    (cmd : UsbIpCmd) (data : List Byte) (hd : cmd.direction = 1) :
    cmdOutMsgs (handle_cmd s hdr cmd data) = none ∨
    cmdOutMsgs (handle_cmd s hdr cmd data) = some s.out_msgs ∨
    (∃ resp : UsbIpResponse,
      cmdOutMsgs (handle_cmd s hdr cmd data) = some (s.out_msgs ++ [resp]) ∧
      resp.header.command = 3 ∧ resp.header.seqnum = hdr.seqnum ∧
      resp.header.devid = 2 ∧ resp.header.direction = 0 ∧
      resp.header.ep = cmd.ep) := by
  cases hout : handle_cmd s hdr cmd data with
  | panicked k => exact .inl rfl
  | ok s2 =>
    rcases handle_cmd_ok_cases s hdr cmd data s2 hout with ⟨-, rfl⟩ |
      ⟨ep0, ep2, he, hsu, hcase⟩
    · exact .inr (.inl rfl)
    rcases hcase with ⟨h0, -⟩ | ⟨-, rfl⟩
    · rw [hd] at h0
      exact absurd h0 (by decide)
    · have hseq : ep2.seqnum = hdr.seqnum :=
        (handleSetup_fields { ep0 with seqnum := hdr.seqnum } ep2 cmd.setup hsu).1
      have heB : get_endpoint
          (set_endpoint s cmd.ep
            { ep2 with bytes_requested := some cmd.transfer_buffer_length }) cmd.ep =
          some { ep2 with bytes_requested := some cmd.transfer_buffer_length } := by
        simp [get_endpoint, set_endpoint]
      rcases try_send_pending_total _ cmd.ep _ heB with hsil | ⟨n, conf, -, -, -, hemit⟩
      · rw [hsil]
        exact .inr (.inl rfl)
      · rw [hemit]
        exact .inr (.inr ⟨_, rfl, rfl, hseq, rfl, rfl, rfl⟩)

/-- C4 witness: the field-echo theorem applied to an IN CMD_SUBMIT with
seqnum 9 on endpoint 1. -/
theorem C4_ret_submit_field_echo_witness :
    cmdOutMsgs (handle_cmd (busWith 1 inPendingEp) ⟨1, 9, 2⟩
      ⟨1, 1, 0, 64, 0, 0, 0, zeroSetup⟩ []) = none ∨
    cmdOutMsgs (handle_cmd (busWith 1 inPendingEp) ⟨1, 9, 2⟩
      ⟨1, 1, 0, 64, 0, 0, 0, zeroSetup⟩ []) = some (busWith 1 inPendingEp).out_msgs ∨
    (∃ resp : UsbIpResponse,
      cmdOutMsgs (handle_cmd (busWith 1 inPendingEp) ⟨1, 9, 2⟩
        ⟨1, 1, 0, 64, 0, 0, 0, zeroSetup⟩ []) =
        some ((busWith 1 inPendingEp).out_msgs ++ [resp]) ∧
      resp.header.command = 3 ∧ resp.header.seqnum = 9 ∧
      resp.header.devid = 2 ∧ resp.header.direction = 0 ∧
      resp.header.ep = 1) :=
  C4_ret_submit_field_echo (busWith 1 inPendingEp) ⟨1, 9, 2⟩
    ⟨1, 1, 0, 64, 0, 0, 0, zeroSetup⟩ [] rfl

/-- An endpoint whose stored seqnum is 5, used to exhibit a decreasing
update. -/
def seq5Ep : Endpoint :=
  { ep_in := some { max_packet_size := 8, data := [], rts := false }
    ep_out := none
    seqnum := 5
    setup_flag := false
    bytes_requested := none }

/-- C6 counterexample: the claim says a frame seqnum not strictly greater
than the stored one leaves the stored seqnum unchanged. Processing a frame
with seqnum 3 on an endpoint holding seqnum 5 stores 3: the stored sequence
number decreases. -/
theorem C6_cx_seqnum_decreases :
    cmdEp (handle_cmd (busWith 0 seq5Ep) ⟨1, 3, 2⟩
      ⟨1, 0, 0, 64, 0, 0, 0, zeroSetup⟩ []) 0 =
      some { ep_in := some { max_packet_size := 8, data := [], rts := false }
             ep_out := none
             seqnum := 3
             setup_flag := false
             bytes_requested := some 64 } :=
  rfl

/-- C6 amended: when `handle_cmd` finds the endpoint and does not panic,
the stored seqnum is unconditionally overwritten with the frame seqnum
(the too-small comparison only logs a warning), so stored sequence numbers
can decrease. -/
theorem C6_seqnum_unconditionally_overwritten (s : UsbIpBusInner)
    (hdr : UsbIpHeader) (cmd : UsbIpCmd) (data : List Byte) (ep0 : Endpoint)
    (he : get_endpoint s cmd.ep = some ep0) :
    cmdOutMsgs (handle_cmd s hdr cmd data) = none ∨
    (∃ ep2, cmdEp (handle_cmd s hdr cmd data) cmd.ep = some ep2 ∧
      ep2.seqnum = hdr.seqnum) := by
  cases hout : handle_cmd s hdr cmd data with
  | panicked k => exact .inl rfl
  | ok s2 =>
    rcases handle_cmd_ok_cases s hdr cmd data s2 hout with ⟨hn, rfl⟩ |
      ⟨ep0a, ep2, hea, hsu, hcase⟩
    · rw [he] at hn
      cases hn
    · have hseq : ep2.seqnum = hdr.seqnum :=
        (handleSetup_fields { ep0a with seqnum := hdr.seqnum } ep2 cmd.setup hsu).1
      rcases hcase with ⟨-, od, ho, rfl⟩ | ⟨-, rfl⟩
      · refine .inr ⟨{ ep2 with
            ep_out := some { od with data := od.data ++ chunks od.max_packet_size data } },
          ?_, hseq⟩
        simp [cmdEp, set_endpoint]
      · have heB : get_endpoint
            (set_endpoint s cmd.ep
              { ep2 with bytes_requested := some cmd.transfer_buffer_length }) cmd.ep =
            some { ep2 with bytes_requested := some cmd.transfer_buffer_length } := by
          simp [get_endpoint, set_endpoint]
        obtain ⟨ep3, hg3, hs3, -, -, -⟩ := try_send_pending_ep _ cmd.ep _ heB
        exact .inr ⟨ep3, hg3, by rw [hs3]; exact hseq⟩

/-- C6 witness: the unconditional-overwrite theorem applied to the frame
with seqnum 3 on the endpoint storing seqnum 5. -/
theorem C6_seqnum_witness :
    cmdOutMsgs (handle_cmd (busWith 0 seq5Ep) ⟨1, 3, 2⟩
      ⟨1, 0, 0, 64, 0, 0, 0, zeroSetup⟩ []) = none ∨
    (∃ ep2, cmdEp (handle_cmd (busWith 0 seq5Ep) ⟨1, 3, 2⟩
      ⟨1, 0, 0, 64, 0, 0, 0, zeroSetup⟩ []) 0 = some ep2 ∧ ep2.seqnum = 3) :=
  C6_seqnum_unconditionally_overwritten (busWith 0 seq5Ep) ⟨1, 3, 2⟩
    ⟨1, 0, 0, 64, 0, 0, 0, zeroSetup⟩ [] seq5Ep rfl

/-- C8 counterexample: the claim says a nonzero SETUP addressed to an
endpoint other than 0 does not set `setup_flag`. A nonzero SETUP addressed
to endpoint 1 sets `setup_flag` on endpoint 1 and pushes the 8 SETUP bytes
onto its OUT queue. -/
theorem C8_cx_setup_flag_set_on_endpoint_one :
    cmdEp (handle_cmd (busWith 1 outOnlyEp) ⟨1, 1, 2⟩
      ⟨0, 1, 0, 0, 0, 0, 0, [128, 6, 0, 1, 0, 0, 18, 0]⟩ []) 1 =
      some { ep_in := none
             ep_out := some { max_packet_size := 8
                              data := [[128, 6, 0, 1, 0, 0, 18, 0]]
                              rts := false }
             seqnum := 1
             setup_flag := true
             bytes_requested := none } :=
  rfl

/-- C8 amended: `handle_cmd` pushes the 8 SETUP bytes and sets `setup_flag`
exactly when the SETUP field is nonzero and the endpoint has an OUT
direction, regardless of the endpoint index (there is no endpoint-0 check);
an all-zero SETUP leaves the flag untouched, and SETUP is processed for IN
as well as OUT directions. -/
theorem C8_setup_processed_on_any_endpoint (s : UsbIpBusInner)
    (hdr : UsbIpHeader) (cmd : UsbIpCmd) (data : List Byte) (ep0 : Endpoint)
    (he : get_endpoint s cmd.ep = some ep0) :
    cmdOutMsgs (handle_cmd s hdr cmd data) = none ∨
    (∃ ep2, cmdEp (handle_cmd s hdr cmd data) cmd.ep = some ep2 ∧
      (cmd.setup = zeroSetup → ep2.setup_flag = ep0.setup_flag) ∧
      (cmd.setup ≠ zeroSetup → ep2.setup_flag = true ∧
        ∃ od, ep0.ep_out = some od ∧ ∃ od2, ep2.ep_out = some od2 ∧
          od2.data.take (od.data.length + 1) = od.data ++ [cmd.setup])) := by
  cases hout : handle_cmd s hdr cmd data with
  | panicked k => exact .inl rfl
  | ok s2 =>
    rcases handle_cmd_ok_cases s hdr cmd data s2 hout with ⟨hn, rfl⟩ |
      ⟨ep0a, ep2, hea, hsu, hcase⟩
    · rw [he] at hn
      cases hn
    rw [he] at hea
    cases hea
    rcases hcase with ⟨-, odB, hoB, rfl⟩ | ⟨-, rfl⟩
    · refine .inr ⟨{ ep2 with
          ep_out := some { odB with data := odB.data ++ chunks odB.max_packet_size data } },
        by simp [cmdEp, set_endpoint], ?_, ?_⟩
      · intro hz
        rcases handleSetup_cases _ ep2 cmd.setup hsu with ⟨-, rfl⟩ | ⟨hnz, -⟩
        · rfl
        · exact absurd hz hnz
      · intro hnz
        rcases handleSetup_cases _ ep2 cmd.setup hsu with ⟨hz, -⟩ |
          ⟨-, od, ho, rfl⟩
        · exact absurd hz hnz
        have hoB2 : some { od with data := od.data ++ [cmd.setup] } = some odB := hoB
        injection hoB2 with hodB
        subst hodB
        refine ⟨rfl, od, ho, _, rfl, ?_⟩
        have hlen : od.data.length + 1 = (od.data ++ [cmd.setup]).length := by simp
        rw [hlen]
        exact List.take_left _ _
    · have heB : get_endpoint
          (set_endpoint s cmd.ep
            { ep2 with bytes_requested := some cmd.transfer_buffer_length }) cmd.ep =
          some { ep2 with bytes_requested := some cmd.transfer_buffer_length } := by
        simp [get_endpoint, set_endpoint]
      obtain ⟨ep3, hg3, -, hf3, ho3, -⟩ := try_send_pending_ep _ cmd.ep _ heB
      refine .inr ⟨ep3, hg3, ?_, ?_⟩
      · intro hz
        rcases handleSetup_cases _ ep2 cmd.setup hsu with ⟨-, rfl⟩ | ⟨hnz, -⟩
        · exact hf3
        · exact absurd hz hnz
      · intro hnz
        rcases handleSetup_cases _ ep2 cmd.setup hsu with ⟨hz, -⟩ |
          ⟨-, od, ho, rfl⟩
        · exact absurd hz hnz
        refine ⟨hf3, od, ho, ?_⟩
        rw [ho3]
        refine ⟨_, rfl, ?_⟩
        exact List.take_of_length_le (by simp)

/-- C8 witness: the SETUP characterization applied to the nonzero SETUP on
endpoint 1. -/
theorem C8_setup_witness :
    cmdOutMsgs (handle_cmd (busWith 1 outOnlyEp) ⟨1, 1, 2⟩
      ⟨0, 1, 0, 0, 0, 0, 0, [128, 6, 0, 1, 0, 0, 18, 0]⟩ []) = none ∨
    (∃ ep2, cmdEp (handle_cmd (busWith 1 outOnlyEp) ⟨1, 1, 2⟩
      ⟨0, 1, 0, 0, 0, 0, 0, [128, 6, 0, 1, 0, 0, 18, 0]⟩ []) 1 = some ep2 ∧
      (([128, 6, 0, 1, 0, 0, 18, 0] : List Byte) = zeroSetup →
        ep2.setup_flag = outOnlyEp.setup_flag) ∧
      (([128, 6, 0, 1, 0, 0, 18, 0] : List Byte) ≠ zeroSetup →
        ep2.setup_flag = true ∧
        ∃ od, outOnlyEp.ep_out = some od ∧ ∃ od2, ep2.ep_out = some od2 ∧
          od2.data.take (od.data.length + 1) =
            od.data ++ [[128, 6, 0, 1, 0, 0, 18, 0]])) :=
  C8_setup_processed_on_any_endpoint (busWith 1 outOnlyEp) ⟨1, 1, 2⟩
    ⟨0, 1, 0, 0, 0, 0, 0, [128, 6, 0, 1, 0, 0, 18, 0]⟩ [] outOnlyEp rfl

/-- C9 amended: peer EOF is the only contained failure: it drops the
connection and returns the bus to the reset/listening state, and an idle
socket is a no-op; but a header read of 1..11 bytes (PacketTooShort) and an
unknown command word (InvalidCommand) make the attached socket arm panic,
terminating the process rather than dropping the connection. -/
theorem C9_eof_contained_but_errors_panic (b : SocketBus) (inp : SocketInput) :
    handle_socket_attached b ⟨true, []⟩ =
      .ok { inner := { b.inner with reset := true }, connected := false } ∧
    handle_socket_attached b ⟨false, []⟩ = .ok b ∧
    (1 ≤ inp.buf.length → inp.buf.length < 12 →
      handle_socket_attached b inp = .panicked) ∧
    (12 ≤ inp.buf.length → be32 (inp.buf.take 4) ≠ 1 →
      handle_socket_attached b inp = .panicked) := by
  refine ⟨rfl, rfl, ?_, ?_⟩
  · intro h1 h2
    have h0 : ¬ inp.buf.length = 0 := by omega
    simp [handle_socket_attached, usbip_read, h0, h2]
  · intro h12 hc
    have h0 : ¬ inp.buf.length = 0 := by omega
    have hlt : ¬ inp.buf.length < 12 := by omega
    have ht : (inp.buf.take 12).take 4 = inp.buf.take 4 := by
      rw [List.take_take]
      norm_num
    simp [handle_socket_attached, usbip_read, h0, hlt, headerFromSlice, ht, hc]

/-- C9 witness: the containment theorem applied to an attached socket
offering a 3-byte header read. -/
theorem C9_witness :
    handle_socket_attached attachedSock ⟨false, [9, 9, 9]⟩ = SockOutcome.panicked :=
  (C9_eof_contained_but_errors_panic attachedSock ⟨false, [9, 9, 9]⟩).2.2.1
    (by decide) (by decide)

end UsbIp
